import Mathlib

/-!
# RDMA file transfer (`rdma_context.cpp`): a shallow embedding

The verbs library, the socket and the C runtime are the environment of the
program: every call into them is recorded as an `Event` of the run's trace and
its result is supplied by an environment record.  A function of the program
becomes a Lean function from the environment to a `Run`: the trace of calls it
made and how it ended (`returned v` or `exited code` for `exit(code)`).

Machine integers are `Nat`/`Int` with explicit wrap-around at the C
conversions (`int` is 32 bits, `long`, `size_t` and pointers are 64 bits).
Output that only prints pointer values is not recorded, and format strings
are recorded without their line breaks.
-/

namespace RdmaApp

/-! ## Machine integers -/

/-- Conversion to `uint32_t`: the value modulo 2^32. -/
def toUInt32 (x : Int) : Nat := (x % 2 ^ 32).toNat

/-- Conversion to `uint64_t` / `size_t`: the value modulo 2^64. -/
def toUInt64 (x : Int) : Nat := (x % 2 ^ 64).toNat

/-- Conversion to `int` (32 bits, two's complement wrap-around). -/
def toInt32 (x : Int) : Int :=
  if x % 2 ^ 32 < 2 ^ 31 then x % 2 ^ 32 else x % 2 ^ 32 - 2 ^ 32

/-! ## Runs: traces and outcomes -/

/-- How a function of the program ends: it returns a value, or the process
terminates through `exit(code)`. -/
inductive Outcome (α : Type) where
  | returned (a : α)
  | exited (code : Nat)
  deriving DecidableEq, Repr

/-! ## Data of the verbs interface and of `rdma_context.h` -/

/-- Queue-pair states requested by `connect_qp` (`enum ibv_qp_state`). -/
inductive ibv_qp_state where
  | IBV_QPS_RESET
  | IBV_QPS_INIT
  | IBV_QPS_RTR
  | IBV_QPS_RTS
  deriving DecidableEq, Repr

/-- Bits of the attribute mask passed to `ibv_modify_qp`. -/
inductive ibv_qp_attr_mask where
  | IBV_QP_STATE
  | IBV_QP_PKEY_INDEX
  | IBV_QP_PORT
  | IBV_QP_ACCESS_FLAGS
  | IBV_QP_AV
  | IBV_QP_PATH_MTU
  | IBV_QP_DEST_QPN
  | IBV_QP_RQ_PSN
  | IBV_QP_MAX_DEST_RD_ATOMIC
  | IBV_QP_MIN_RNR_TIMER
  | IBV_QP_TIMEOUT
  | IBV_QP_RETRY_CNT
  | IBV_QP_RNR_RETRY
  | IBV_QP_SQ_PSN
  | IBV_QP_MAX_QP_RD_ATOMIC
  deriving DecidableEq, Repr

/-- Access flags of a registration or of a queue pair (`enum ibv_access_flags`). -/
inductive ibv_access_flags where
  | IBV_ACCESS_LOCAL_WRITE
  | IBV_ACCESS_REMOTE_WRITE
  | IBV_ACCESS_REMOTE_READ
  deriving DecidableEq, Repr

/-- The fields of `struct ibv_qp_attr` that `connect_qp` sets; `memset` puts
every field to zero before each transition. -/
structure ibv_qp_attr where
  qp_state : ibv_qp_state := ibv_qp_state.IBV_QPS_RESET
  pkey_index : Nat := 0
  port_num : Nat := 0
  qp_access_flags : List ibv_access_flags := []
  path_mtu : Nat := 0
  dest_qp_num : Nat := 0
  rq_psn : Nat := 0
  max_dest_rd_atomic : Nat := 0
  min_rnr_timer : Nat := 0
  ah_dgid : List Nat := []
  ah_sgid_index : Nat := 0
  ah_hop_limit : Nat := 0
  ah_is_global : Nat := 0
  ah_sl : Nat := 0
  ah_src_path_bits : Nat := 0
  ah_port_num : Nat := 0
  sq_psn : Nat := 0
  timeout : Nat := 0
  retry_cnt : Nat := 0
  rnr_retry : Nat := 0
  max_rd_atomic : Nat := 0
  deriving DecidableEq, Repr

/-- A scatter-gather entry (`struct ibv_sge`). -/
structure ibv_sge where
  addr : Nat := 0
  length : Nat := 0
  lkey : Nat := 0
  deriving DecidableEq, Repr

/-- A receive work request (`struct ibv_recv_wr`); `sg_list` holds the
`num_sge` entries the pointer refers to. -/
structure ibv_recv_wr where
  wr_id : Nat := 0
  sg_list : List ibv_sge := []
  num_sge : Nat := 0
  deriving DecidableEq, Repr

/-- Opcodes of send-queue work requests used by the program. -/
inductive ibv_wr_opcode where
  | IBV_WR_RDMA_WRITE
  | IBV_WR_RDMA_WRITE_WITH_IMM
  | IBV_WR_SEND
  | IBV_WR_RDMA_READ
  deriving DecidableEq, Repr

/-- Send flags (`enum ibv_send_flags`). -/
inductive ibv_send_flags where
  | IBV_SEND_SIGNALED
  deriving DecidableEq, Repr

/-- A send work request (`struct ibv_send_wr`), zero-initialised by `= {}`. -/
structure ibv_send_wr where
  wr_id : Nat := 0
  sg_list : List ibv_sge := []
  num_sge : Nat := 0
  opcode : ibv_wr_opcode := ibv_wr_opcode.IBV_WR_RDMA_WRITE
  send_flags : List ibv_send_flags := []
  imm_data : Nat := 0
  remote_addr : Nat := 0
  rkey : Nat := 0
  deriving DecidableEq, Repr

/-- A memory registration (`struct ibv_mr`): the keys the program reads. -/
structure ibv_mr where
  lkey : Nat
  rkey : Nat
  deriving DecidableEq, Repr

/-- A work completion (`struct ibv_wc`): the fields the program reads. -/
structure ibv_wc where
  wr_id : Nat
  status : Nat
  deriving DecidableEq, Repr

/-- The value of `IBV_WC_SUCCESS`, the first enumerator of `enum ibv_wc_status`. -/
def IBV_WC_SUCCESS : Nat := 0

/-- An entry of the device list (`struct ibv_device`): its name. -/
structure ibv_device where
  name : String
  deriving DecidableEq, Repr

/-- The record `struct connection_establishment_data`. -/
structure connection_establishment_data where
  gid : List Nat
  qpn : Int
  deriving DecidableEq, Repr

/-- The record `struct file_request`; the three `int` fields are `Int`s in the
range of a 32-bit `int`, `addr` is a `uint64_t`. -/
structure file_request where
  request_id : Int
  rkey : Int
  length : Int
  addr : Nat
  deriving DecidableEq, Repr

/-- The constants of `settings.h`, which is not among the sources: they are
parameters of the embedding. -/
structure settings where
  MAX_NUM_REQUESTS : Nat
  IB_PORT : Nat
  GID_ID : Nat
  IB_DEVICE_NAME : String
  deriving DecidableEq, Repr

/-! ## Events -/

/-- The calls into the environment that a run records, in program order. -/
inductive Event where
  | printf (fmt : String) (args : List Int)
  | fprintf_stderr (fmt : String) (args : List Int)
  | perror (msg : String)
  | ibv_open_device (dev : ibv_device)
  | ibv_alloc_pd
  | ibv_reg_mr (addr : Nat) (length : Nat) (access : List ibv_access_flags)
  | ibv_create_cq (cqe : Nat)
  | ibv_create_qp (max_send_wr max_recv_wr max_send_sge max_recv_sge : Nat)
  | ibv_modify_qp (attr : ibv_qp_attr) (mask : List ibv_qp_attr_mask)
  | ibv_post_recv (wr : ibv_recv_wr)
  | ibv_post_send (wr : ibv_send_wr)
  | ibv_poll_cq (num_entries : Nat)
  | send (req : file_request)
  | recv
  | malloc (size : Nat)
  deriving DecidableEq, Repr

/-- A run of a function: the calls it made and how it ended. -/
structure Run (α : Type) where
  trace : List Event
  outcome : Outcome α
  deriving DecidableEq

/-- Return `a` without any call. -/
def Run.pure {α : Type} (a : α) : Run α := ⟨[], Outcome.returned a⟩

/-- Sequencing: the second part runs only when the first part returned. -/
def Run.bind {α β : Type} (r : Run α) (f : α → Run β) : Run β :=
  match r.outcome with
  | Outcome.returned a => ⟨r.trace ++ (f a).trace, (f a).outcome⟩
  | Outcome.exited c => ⟨r.trace, Outcome.exited c⟩

instance : Monad Run where
  pure := Run.pure
  bind := Run.bind

/-- Record one call. -/
def emit (e : Event) : Run Unit := ⟨[e], Outcome.returned ()⟩

/-- The call `exit(code)`: nothing after it runs. -/
def exit {α : Type} (code : Nat) : Run α := ⟨[], Outcome.exited code⟩

/-! ## `strcmp` and the device selection of `initialize_verbs` -/

/-- The comparison of two NUL-terminated strings, on their characters before
the terminator: zero exactly when the strings are equal, otherwise the
difference of the first two characters that differ (the terminator is 0). -/
def strcmp_chars : List Char → List Char → Int
  | [], [] => 0
  | [], b :: _ => 0 - (b.toNat : Int)
  | a :: _, [] => (a.toNat : Int)
  | a :: as, b :: bs =>
    if a = b then strcmp_chars as bs else (a.toNat : Int) - (b.toNat : Int)

/-- The library function `strcmp`. -/
def strcmp (s t : String) : Int := strcmp_chars s.toList t.toList

/-- The loop `for (int i = 0; device_list[i]; ++i) if (strcmp(...)) ... break;`
over the NULL-terminated device list: the value of `requested_dev` after it. -/
def select_loop (device_name : String) : List ibv_device → Option ibv_device
  | [] => none
  | d :: rest =>
    if strcmp d.name device_name ≠ 0 then some d else select_loop device_name rest

/-- The device `initialize_verbs` settles on: the loop's choice, else
`device_list[0]` (`none` when that is the terminating NULL). -/
def select_device (device_name : String) (device_list : List ibv_device) :
    Option ibv_device :=
  match select_loop device_name device_list with
  | some d => some d
  | none => device_list.head?

/-- Results of the verbs calls of `initialize_verbs`. -/
structure VerbsEnv where
  ibv_get_device_list : Option (List ibv_device)
  ibv_alloc_pd : Bool
  requests_addr : Nat
  sizeof_file_request : Nat
  ibv_reg_mr_requests : Option ibv_mr
  ibv_create_cq : Bool
  ibv_create_qp : Bool

/-- The function `rdma_context::initialize_verbs`; it returns the registration of
the `requests` array. -/
def initialize_verbs (cfg : settings) (env : VerbsEnv) (device_name : String) :
    Run ibv_mr := do
  emit (Event.printf "initializing ibverbs with device: %s" [])
  match env.ibv_get_device_list with
  | none => do
    emit (Event.perror "ibv_get_device_list failed")
    exit 1
  | some device_list =>
    match select_device device_name device_list with
    | none => do
      emit (Event.printf "Unable to find RDMA device" [])
      exit 1
    | some requested_dev => do
      emit (Event.ibv_open_device requested_dev)
      emit Event.ibv_alloc_pd
      if !env.ibv_alloc_pd then do
        emit (Event.perror "ibv_alloc_pd() failed")
        exit 1
      else do
        emit (Event.ibv_reg_mr env.requests_addr
          (env.sizeof_file_request * cfg.MAX_NUM_REQUESTS)
          [ibv_access_flags.IBV_ACCESS_LOCAL_WRITE])
        match env.ibv_reg_mr_requests with
        | none => do
          emit (Event.perror "ibv_reg_mr() failed for requests")
          exit 1
        | some mr_requests => do
          emit (Event.ibv_create_cq (2 * cfg.MAX_NUM_REQUESTS))
          if !env.ibv_create_cq then do
            emit (Event.perror "ibv_create_cq() failed")
            exit 1
          else do
            emit (Event.ibv_create_qp cfg.MAX_NUM_REQUESTS cfg.MAX_NUM_REQUESTS 1 1)
            if !env.ibv_create_qp then do
              emit (Event.perror "ibv_create_qp() failed")
              exit 1
            else
              pure mr_requests

/-- The devices a run opened, in order. -/
def opened_devices : List Event → List ibv_device
  | [] => []
  | Event.ibv_open_device d :: rest => d :: opened_devices rest
  | _ :: rest => opened_devices rest

/-! ## Connecting the queue pair -/

/-- The part of the object `rdma_context` that the post helpers read: where the
`requests` array lies, the size of one element, and its registration. -/
structure rdma_context where
  requests_addr : Nat
  sizeof_file_request : Nat
  mr_requests : ibv_mr

/-- Return values of the verbs calls on the queue pair. -/
structure QpEnv where
  ibv_modify_qp : ibv_qp_attr → List ibv_qp_attr_mask → Int
  ibv_post_recv : ibv_recv_wr → Int
  ibv_post_send : ibv_send_wr → Int

/-- The attributes of the transition RESET -> INIT. -/
def attr_INIT (cfg : settings) : ibv_qp_attr :=
  { qp_state := ibv_qp_state.IBV_QPS_INIT
    pkey_index := 0
    port_num := cfg.IB_PORT
    qp_access_flags :=
      [ibv_access_flags.IBV_ACCESS_REMOTE_WRITE, ibv_access_flags.IBV_ACCESS_REMOTE_READ] }

/-- The mask of the transition RESET -> INIT. -/
def mask_INIT : List ibv_qp_attr_mask :=
  [ibv_qp_attr_mask.IBV_QP_STATE, ibv_qp_attr_mask.IBV_QP_PKEY_INDEX,
   ibv_qp_attr_mask.IBV_QP_PORT, ibv_qp_attr_mask.IBV_QP_ACCESS_FLAGS]

/-- The attributes of the transition INIT -> RTR; `IBV_MTU_1024` is 3. -/
def attr_RTR (cfg : settings) (remote_info : connection_establishment_data) : ibv_qp_attr :=
  { qp_state := ibv_qp_state.IBV_QPS_RTR
    path_mtu := 3
    dest_qp_num := toUInt32 remote_info.qpn
    rq_psn := 0
    max_dest_rd_atomic := 1
    min_rnr_timer := 12
    ah_dgid := remote_info.gid
    ah_sgid_index := cfg.GID_ID
    ah_hop_limit := 1
    ah_is_global := 1
    ah_sl := 0
    ah_src_path_bits := 0
    ah_port_num := cfg.IB_PORT }

/-- The mask of the transition INIT -> RTR. -/
def mask_RTR : List ibv_qp_attr_mask :=
  [ibv_qp_attr_mask.IBV_QP_STATE, ibv_qp_attr_mask.IBV_QP_AV,
   ibv_qp_attr_mask.IBV_QP_PATH_MTU, ibv_qp_attr_mask.IBV_QP_DEST_QPN,
   ibv_qp_attr_mask.IBV_QP_RQ_PSN, ibv_qp_attr_mask.IBV_QP_MAX_DEST_RD_ATOMIC,
   ibv_qp_attr_mask.IBV_QP_MIN_RNR_TIMER]

/-- The attributes of the transition RTR -> RTS. -/
def attr_RTS : ibv_qp_attr :=
  { qp_state := ibv_qp_state.IBV_QPS_RTS
    sq_psn := 0
    timeout := 14
    retry_cnt := 7
    rnr_retry := 7
    max_rd_atomic := 16 }

/-- The mask of the transition RTR -> RTS. -/
def mask_RTS : List ibv_qp_attr_mask :=
  [ibv_qp_attr_mask.IBV_QP_STATE, ibv_qp_attr_mask.IBV_QP_TIMEOUT,
   ibv_qp_attr_mask.IBV_QP_RETRY_CNT, ibv_qp_attr_mask.IBV_QP_RNR_RETRY,
   ibv_qp_attr_mask.IBV_QP_SQ_PSN, ibv_qp_attr_mask.IBV_QP_MAX_QP_RD_ATOMIC]

/-- The work request `post_recv(index)` builds: `wr_id` is the index, and for a
non-negative index the single entry covers `requests[index]`. -/
def recv_wr_of (ctx : rdma_context) (index : Int) : ibv_recv_wr :=
  { wr_id := toUInt64 index
    sg_list :=
      [if 0 ≤ index then
          { addr := ctx.requests_addr + index.toNat * ctx.sizeof_file_request
            length := ctx.sizeof_file_request
            lkey := ctx.mr_requests.lkey }
        else {}]
    num_sge := 1 }

/-- The function `rdma_context::post_recv`. -/
def post_recv (ctx : rdma_context) (env : QpEnv) (index : Int) : Run Unit := do
  emit (Event.ibv_post_recv (recv_wr_of ctx index))
  if env.ibv_post_recv (recv_wr_of ctx index) ≠ 0 then do
    emit (Event.perror "ibv_post_recv() failed")
    exit 1
  else
    pure ()

/-- The loop `for (int i = 0; i < MAX_NUM_REQUESTS; i++) post_recv(i);` from
index `i` with `remaining` iterations to go. -/
def post_recv_loop (ctx : rdma_context) (env : QpEnv) (i : Nat) : Nat → Run Unit
  | 0 => pure ()
  | remaining + 1 => do
    post_recv ctx env (i : Int)
    post_recv_loop ctx env (i + 1) remaining

/-- The function `rdma_context::connect_qp`. -/
def connect_qp (cfg : settings) (ctx : rdma_context) (env : QpEnv)
    (remote_info : connection_establishment_data) : Run Unit := do
  emit (Event.ibv_modify_qp (attr_INIT cfg) mask_INIT)
  if env.ibv_modify_qp (attr_INIT cfg) mask_INIT ≠ 0 then do
    emit (Event.perror "ibv_modify_qp() to INIT failed")
    exit 1
  else do
    emit (Event.ibv_modify_qp (attr_RTR cfg remote_info) mask_RTR)
    if env.ibv_modify_qp (attr_RTR cfg remote_info) mask_RTR ≠ 0 then do
      emit (Event.perror "ibv_modify_qp() to RTR failed")
      exit 1
    else do
      emit (Event.ibv_modify_qp attr_RTS mask_RTS)
      if env.ibv_modify_qp attr_RTS mask_RTS ≠ 0 then do
        emit (Event.perror "ibv_modify_qp() to RTS failed")
        exit 1
      else
        post_recv_loop ctx env 0 cfg.MAX_NUM_REQUESTS

/-! ## One-sided operations -/

/-- The work request `post_rdma_read` builds. -/
def rdma_read_wr (local_dst len lkey remote_src rkey wr_id : Nat) : ibv_send_wr :=
  { opcode := ibv_wr_opcode.IBV_WR_RDMA_READ
    wr_id := wr_id
    sg_list := [{ addr := local_dst, length := len, lkey := lkey }]
    num_sge := 1
    send_flags := [ibv_send_flags.IBV_SEND_SIGNALED]
    remote_addr := remote_src
    rkey := rkey }

/-- The function `rdma_context::post_rdma_read`. -/
def post_rdma_read (env : QpEnv) (local_dst len lkey remote_src rkey wr_id : Nat) :
    Run Unit := do
  emit (Event.ibv_post_send (rdma_read_wr local_dst len lkey remote_src rkey wr_id))
  if env.ibv_post_send (rdma_read_wr local_dst len lkey remote_src rkey wr_id) ≠ 0 then do
    emit (Event.perror "ibv_post_send() failed")
    exit 1
  else
    pure ()

/-- The work request `post_rdma_write` builds; `immediate` is the value behind
the optional pointer. -/
def rdma_write_wr (remote_dst len rkey local_src lkey wr_id : Nat)
    (immediate : Option Nat) : ibv_send_wr :=
  { opcode :=
      match immediate with
      | some _ => ibv_wr_opcode.IBV_WR_RDMA_WRITE_WITH_IMM
      | none => ibv_wr_opcode.IBV_WR_RDMA_WRITE
    imm_data := immediate.getD 0
    wr_id := wr_id
    sg_list := [{ addr := local_src, length := len, lkey := lkey }]
    num_sge := 1
    send_flags := [ibv_send_flags.IBV_SEND_SIGNALED]
    remote_addr := remote_dst
    rkey := rkey }

/-- The function `rdma_context::post_rdma_write`. -/
def post_rdma_write (env : QpEnv) (remote_dst len rkey local_src lkey wr_id : Nat)
    (immediate : Option Nat) : Run Unit := do
  emit (Event.ibv_post_send (rdma_write_wr remote_dst len rkey local_src lkey wr_id immediate))
  if env.ibv_post_send
      (rdma_write_wr remote_dst len rkey local_src lkey wr_id immediate) ≠ 0 then do
    emit (Event.perror "ibv_post_send() failed")
    exit 1
  else
    pure ()

/-! ## Completion polling -/

/-- The completion source: what the `i`-th call `ibv_poll_cq(cq, 1, &wc)` of a
run returns, together with the entry it writes into `wc` when the count is
positive; and the contents of the local `wc` before any call (it is not
initialised). -/
structure CqEnv where
  ibv_poll_cq : Nat → Int × ibv_wc
  wc_uninit : ibv_wc

/-- The loop `while ((num_completions = ibv_poll_cq(cq, 1, &wc)) == 0);` run
for at most `fuel` calls, starting with call number `i`: `none` while it is
still looping, else the number of calls made so far, the last return value and
the contents of `wc`. -/
def poll_loop (cq : CqEnv) : Nat → Nat → ibv_wc → Option (Nat × Int × ibv_wc)
  | 0, _, _ => none
  | fuel + 1, i, wc =>
    if (cq.ibv_poll_cq i).1 = 0 then
      poll_loop cq fuel (i + 1) wc
    else
      some (i + 1, (cq.ibv_poll_cq i).1,
        if 0 < (cq.ibv_poll_cq i).1 then (cq.ibv_poll_cq i).2 else wc)

/-- The function `rdma_context::poll_cq`, with at most `fuel` calls of
`ibv_poll_cq`: `none` when the loop has not ended within them. -/
def poll_cq (cq : CqEnv) (fuel : Nat) : Option (Run Bool) :=
  match poll_loop cq fuel 0 cq.wc_uninit with
  | none => none
  | some (polls, num_completions, wc) => some (do
    (⟨List.replicate polls (Event.ibv_poll_cq 1), Outcome.returned ()⟩ : Run Unit)
    if num_completions < 0 then
      emit (Event.perror "Error polling CQ")
    if wc.status = IBV_WC_SUCCESS then do
      emit (Event.printf "RDMA Read completed successfully!" [])
      pure true
    else do
      emit (Event.fprintf_stderr "RDMA Read failed: %d" [(wc.status : Int)])
      pure false)

/-! ## Memory and the effect of an RDMA Read -/

/-- The memory of one process: the byte at each address. -/
abbrev Memory := Nat → Nat

/-- The memory `dst` after `len` bytes from `src_addr` of `src` were copied to
`dst_addr`. -/
def copy_bytes (src : Memory) (src_addr : Nat) (dst : Memory) (dst_addr len : Nat) : Memory :=
  fun a => if dst_addr ≤ a ∧ a < dst_addr + len then src (src_addr + (a - dst_addr)) else dst a

/-- The remote bytes from `remote_addr` on, scattered over the entries of a
scatter-gather list in order. -/
def scatter (remote : Memory) : Nat → List ibv_sge → Memory → Memory
  | _, [], mem => mem
  | remote_addr, sge :: rest, mem =>
    scatter remote (remote_addr + sge.length) rest
      (copy_bytes remote remote_addr mem sge.addr sge.length)

/-- The local memory after the adapter has carried out the RDMA Read `wr`: the
bytes at `wr.remote_addr` of the peer are in the buffers of its scatter-gather
list. -/
def rdma_read_effect (remote : Memory) (wr : ibv_send_wr) (mem : Memory) : Memory :=
  scatter remote wr.remote_addr wr.sg_list mem

/-! ## The server: `receive_file` -/

/-- The environment of `receive_file`: the result of `recv` and the record it
left in `*req` (a non-negative result is taken to have delivered the whole
record), the pointer `malloc` returns for the file buffer, the results of the
verbs calls, and the memory of the peer as the adapter reads it. -/
structure ServerEnv where
  sizeof_file_request : Nat
  recv_ret : Int
  recv_req : file_request
  malloc : Nat → Nat
  ibv_reg_mr : Nat → Nat → List ibv_access_flags → Option ibv_mr
  qp : QpEnv
  cq : CqEnv
  remote_memory : Memory

/-- The members `receive_file` sets, the value of its local `done`, and the
memory of the server when it returns. -/
structure ServerState where
  file : Nat
  mr_file : ibv_mr
  done : Bool
  mem : Memory

/-- The access flags both sides register the file buffer with. -/
def file_access_server : List ibv_access_flags :=
  [ibv_access_flags.IBV_ACCESS_REMOTE_READ, ibv_access_flags.IBV_ACCESS_LOCAL_WRITE,
   ibv_access_flags.IBV_ACCESS_REMOTE_WRITE]

/-- The work request `receive_file` passes to `post_rdma_read` for the
descriptor `req`, the buffer `file` and the local key `lkey`. -/
def receive_file_wr (req : file_request) (file lkey : Nat) : ibv_send_wr :=
  rdma_read_wr file (toUInt32 req.length) lkey req.addr (toUInt32 req.rkey) 1

/-- The pointer `file = (char*) malloc(req->length+1)`: the sum is an `int`,
converted to `size_t` for the call. -/
def server_file (env : ServerEnv) : Nat :=
  env.malloc (toUInt64 (toInt32 (env.recv_req.length + 1)))

/-- The first part of `receive_file`, up to and including `post_rdma_read`: it
returns `file` and `mr_file`. -/
def receive_file_post (env : ServerEnv) : Run (Nat × ibv_mr) := do
  emit (Event.malloc env.sizeof_file_request)
  emit Event.recv
  if env.recv_ret < 0 then do
    emit (Event.perror "recv")
    exit 1
  else do
    emit (Event.malloc (toUInt64 (toInt32 (env.recv_req.length + 1))))
    emit (Event.printf "file request: request_id=%d, rkey=%d, length=%d, addr=%p"
      [env.recv_req.request_id, env.recv_req.rkey, env.recv_req.length, env.recv_req.addr])
    emit (Event.ibv_reg_mr (server_file env) (toUInt64 env.recv_req.length) file_access_server)
    match env.ibv_reg_mr (server_file env) (toUInt64 env.recv_req.length)
        file_access_server with
    | none => do
      emit (Event.perror "ibv_reg_mr() in server failed for file")
      exit 1
    | some mr_file => do
      post_rdma_read env.qp (server_file env) (toUInt32 env.recv_req.length) mr_file.lkey
        env.recv_req.addr (toUInt32 env.recv_req.rkey) 1
      pure (server_file env, mr_file)

/-- The memory of the server once the polling loop has ended: when the loop
obtained a completion entry (positive count) whose status is success, the
adapter has carried out the read `wr`; in every other case the model leaves
the memory as it was. -/
def memory_after_poll (env : ServerEnv) (fuel : Nat) (wr : ibv_send_wr) (mem : Memory) :
    Memory :=
  match poll_loop env.cq fuel 0 env.cq.wc_uninit with
  | some (_, num_completions, wc) =>
    if 0 < num_completions ∧ wc.status = IBV_WC_SUCCESS then
      rdma_read_effect env.remote_memory wr mem
    else mem
  | none => mem

/-- The function `rdma_server_context::receive_file`, with at most `fuel`
calls of `ibv_poll_cq`: `none` when `poll_cq` is still looping after them. -/
def receive_file (env : ServerEnv) (mem : Memory) (fuel : Nat) : Option (Run ServerState) :=
  match (receive_file_post env).outcome with
  | Outcome.exited code => some ⟨(receive_file_post env).trace, Outcome.exited code⟩
  | Outcome.returned (file, mr_file) =>
    match poll_cq env.cq fuel with
    | none => none
    | some polled => some (do
      let _ ← receive_file_post env
      let done ← polled
      if !done then
        emit (Event.perror "server: poll_cq returned false")
      pure
        { file := file
          mr_file := mr_file
          done := done
          mem := memory_after_poll env fuel
            (receive_file_wr env.recv_req file mr_file.lkey) mem })

/-- The work requests a run handed to `ibv_post_send`, in order. -/
def posted_sends : List Event → List ibv_send_wr
  | [] => []
  | Event.ibv_post_send wr :: rest => wr :: posted_sends rest
  | _ :: rest => posted_sends rest

/-- The messages a run reported through `perror`, in order. -/
def perrors : List Event → List String
  | [] => []
  | Event.perror msg :: rest => msg :: perrors rest
  | _ :: rest => perrors rest

/-! ## The client: `send_file` -/

/-- The environment of `send_file`: whether `fopen` succeeded, the length of
the file (`ftell` at its end) and its bytes by offset, the contents of the
local `length` when it is never assigned, the pointer `posix_memalign` stores
into `buffer` (0 when it fails), and the results of `ibv_reg_mr` and `send`. -/
structure ClientEnv where
  fopen : Bool
  file_length : Nat
  file_bytes : Memory
  length_uninit : Int
  posix_memalign : Nat → Nat
  ibv_reg_mr : Nat → Nat → List ibv_access_flags → Option ibv_mr
  send_ret : Int

/-- The result of `send_file`, its local `buffer`, and the memory of the client
when it returns. -/
structure ClientState where
  result : Bool
  buffer : Nat
  mem : Memory

/-- The access flags `send_file` registers the file buffer with. -/
def file_access_client : List ibv_access_flags :=
  [ibv_access_flags.IBV_ACCESS_REMOTE_READ, ibv_access_flags.IBV_ACCESS_REMOTE_WRITE,
   ibv_access_flags.IBV_ACCESS_LOCAL_WRITE]

/-- The local `long length` of `send_file` after the file was read. -/
def client_length (env : ClientEnv) : Int :=
  if env.fopen then (env.file_length : Int) else env.length_uninit

/-- The local `buffer` of `send_file` after the file was read. -/
def client_buffer (env : ClientEnv) : Nat :=
  if env.fopen then env.posix_memalign (toUInt64 (client_length env)) else 0

/-- The memory of the client after `fread(buffer, 1, length, f)`, which runs
only when the file was opened and `buffer` is not null. -/
def client_memory (env : ClientEnv) (mem : Memory) : Memory :=
  if env.fopen ∧ client_buffer env ≠ 0 then
    copy_bytes env.file_bytes 0 mem (client_buffer env) env.file_length
  else mem

/-- The descriptor `send_file` builds from the registration `mr_file`. -/
def client_request (env : ClientEnv) (mr_file : ibv_mr) : file_request :=
  { request_id := 1
    rkey := toInt32 mr_file.rkey
    length := toInt32 (client_length env)
    addr := client_buffer env }

/-- The function `rdma_client_context::send_file`. -/
def send_file (env : ClientEnv) (mem : Memory) : Run ClientState := do
  emit (Event.ibv_reg_mr (client_buffer env) (toUInt64 (client_length env)) file_access_client)
  match env.ibv_reg_mr (client_buffer env) (toUInt64 (client_length env))
      file_access_client with
  | none => do
    emit (Event.perror "ibv_reg_mr() in client failed for file")
    exit 1
  | some mr_file => do
    emit (Event.printf "buf content that will be sent: %s" [])
    emit (Event.send (client_request env mr_file))
    if env.send_ret < 0 then do
      emit (Event.perror "send")
      exit 1
    else do
      emit (Event.printf "file request: request_id=%d, rkey=%d, length=%d, addr=%p"
        [(client_request env mr_file).request_id, (client_request env mr_file).rkey,
         (client_request env mr_file).length, (client_request env mr_file).addr])
      pure { result := true, buffer := client_buffer env, mem := client_memory env mem }

/-- The descriptors a run handed to `send_over_socket`, in order. -/
def sent_requests : List Event → List file_request
  | [] => []
  | Event.send req :: rest => req :: sent_requests rest
  | _ :: rest => sent_requests rest

/-! ## Reading traces -/

/-- The queue-pair states a run requested through `ibv_modify_qp`, in order. -/
def modify_states : List Event → List ibv_qp_state
  | [] => []
  | Event.ibv_modify_qp attr _ :: rest => attr.qp_state :: modify_states rest
  | _ :: rest => modify_states rest

/-- The work requests a run handed to `ibv_post_recv`, in order. -/
def posted_recvs : List Event → List ibv_recv_wr
  | [] => []
  | Event.ibv_post_recv wr :: rest => wr :: posted_recvs rest
  | _ :: rest => posted_recvs rest

/-- The work requests handed to `ibv_post_recv` before the first
`ibv_modify_qp` call that requests the state RTS, i.e. while the queue pair
has not left RTR. -/
def recvs_before_RTS : List Event → List ibv_recv_wr
  | [] => []
  | Event.ibv_modify_qp attr _ :: rest =>
    if attr.qp_state = ibv_qp_state.IBV_QPS_RTS then [] else recvs_before_RTS rest
  | Event.ibv_post_recv wr :: rest => wr :: recvs_before_RTS rest
  | _ :: rest => recvs_before_RTS rest

/-- The receive work requests of the slots `0 .. N-1`, in order. -/
def all_slots (ctx : rdma_context) (N : Nat) : List ibv_recv_wr :=
  (List.range' 0 N).map (fun (j : Nat) => recv_wr_of ctx (j : Int))

/-! ## Concrete environments -/

/-- Settings with two control slots. -/
def example_settings : settings :=
  { MAX_NUM_REQUESTS := 2, IB_PORT := 1, GID_ID := 0, IB_DEVICE_NAME := "mlx5_0" }

/-- A host with the two devices `mlx5_0` and `mlx5_1`, on which every verbs
call of `initialize_verbs` succeeds. -/
def two_devices : VerbsEnv :=
  { ibv_get_device_list := some [{ name := "mlx5_0" }, { name := "mlx5_1" }]
    ibv_alloc_pd := true
    requests_addr := 4096
    sizeof_file_request := 24
    ibv_reg_mr_requests := some { lkey := 7, rkey := 8 }
    ibv_create_cq := true
    ibv_create_qp := true }

/-- A context whose `requests` array lies at address 4096. -/
def example_context : rdma_context :=
  { requests_addr := 4096, sizeof_file_request := 24, mr_requests := { lkey := 7, rkey := 8 } }

/-- A queue pair on which every verbs call succeeds. -/
def qp_all_ok : QpEnv :=
  { ibv_modify_qp := fun _ _ => 0, ibv_post_recv := fun _ => 0, ibv_post_send := fun _ => 0 }

/-- The connection data of some peer. -/
def example_remote : connection_establishment_data := { gid := [], qpn := 5 }

/-- A completion source whose first call fails with -1 and writes no entry,
while the uninitialised `wc` happens to hold zeros. -/
def cq_error : CqEnv :=
  { ibv_poll_cq := fun _ => (-1, { wr_id := 0, status := 5 })
    wc_uninit := { wr_id := 0, status := 0 } }

/-- A completion source that never signals a completion: every call returns 0. -/
def cq_silent : CqEnv :=
  { ibv_poll_cq := fun _ => (0, { wr_id := 0, status := 0 })
    wc_uninit := { wr_id := 0, status := 0 } }

/-- The value a run returned, if it returned. -/
def returned_value {α : Type} (r : Run α) : Option α :=
  match r.outcome with
  | Outcome.returned a => some a
  | Outcome.exited _ => none

/-- A completion source that answers 0 once and then delivers the completion
of work request 1 with status success. -/
def cq_success : CqEnv :=
  { ibv_poll_cq := fun i =>
      if i = 0 then (0, { wr_id := 0, status := 0 }) else (1, { wr_id := 1, status := 0 })
    wc_uninit := { wr_id := 0, status := 9 } }

/-- A completion source that delivers the completion of work request 1 with
status 10 (remote access error). -/
def cq_failure : CqEnv :=
  { ibv_poll_cq := fun _ => (1, { wr_id := 1, status := 10 })
    wc_uninit := { wr_id := 0, status := 0 } }

/-- A client whose file has 5 bytes, all 1; every call succeeds. -/
def client_ok : ClientEnv :=
  { fopen := true
    file_length := 5
    file_bytes := fun _ => 1
    length_uninit := 0
    posix_memalign := fun _ => 4096
    ibv_reg_mr := fun _ _ _ => some { lkey := 1, rkey := 2 }
    send_ret := 24 }

/-- The client `client_ok` with a file of 2^31 bytes. -/
def client_2GiB : ClientEnv := { client_ok with file_length := 2 ^ 31 }

/-- The client `client_ok` with a file of 2^32 + 1 bytes. -/
def client_4GiB : ClientEnv := { client_ok with file_length := 2 ^ 32 + 1 }

/-- A memory that holds the byte 0 everywhere. -/
def zero_memory : Memory := fun _ => 0

/-- The server that receives what `client_ok` sends and reads the memory
`client_ok` has after `send_file`; every call succeeds. -/
def server_ok : ServerEnv :=
  { sizeof_file_request := 24
    recv_ret := 24
    recv_req := { request_id := 1, rkey := 2, length := 5, addr := 4096 }
    malloc := fun _ => 8192
    ibv_reg_mr := fun _ _ _ => some { lkey := 3, rkey := 4 }
    qp := qp_all_ok
    cq := cq_success
    remote_memory := client_memory client_ok zero_memory }

/-- The server `server_ok` with a completion that reports a failure. -/
def server_read_fails : ServerEnv := { server_ok with cq := cq_failure }

/-- The server that receives what `client_4GiB` sends and reads the memory
`client_4GiB` has after `send_file`. -/
def server_4GiB : ServerEnv :=
  { server_ok with
    recv_req := { request_id := 1, rkey := 2, length := 1, addr := 4096 }
    remote_memory := client_memory client_4GiB zero_memory }

/-! ## The server's port (`server.cpp`) -/

/-- Conversion to `uint16_t`: the value modulo 2^16. -/
def toUInt16 (x : Int) : Nat := (x % 2 ^ 16).toNat

/-- The macro `TCP_PORT_OFFSET` of `server.cpp`. -/
def TCP_PORT_OFFSET : Int := 23456

/-- The macro `TCP_PORT_RANGE` of `server.cpp`. -/
def TCP_PORT_RANGE : Int := 1000

/-- The function `parse_arguments` of `server.cpp`: the value it stores into
`*tcp_port`; `atoi_argv1` is what `atoi(argv[1])` returns when there is such
an argument. -/
def parse_arguments (argc : Int) (atoi_argv1 : Int) : Run Nat :=
  if argc < 1 then do
    emit (Event.printf "usage: %s [tcp port]" [])
    exit 1
  else if argc < 2 then
    pure 0
  else
    pure (toUInt16 atoi_argv1)

/-- The start of `main` of `server.cpp`, up to the value of `tcp_port` the
server context is built with; `rand` is what `rand()` returns. The remainder
`%` of C truncates towards zero. -/
def main_tcp_port (argc : Int) (atoi_argv1 : Int) (rand : Int) : Run Nat := do
  let tcp_port ← parse_arguments argc atoi_argv1
  if tcp_port = 0 then
    pure (toUInt16 (TCP_PORT_OFFSET + Int.tmod rand TCP_PORT_RANGE))
  else
    pure tcp_port

/-! ## Lemmas on the post helpers -/

theorem post_recv_ok (ctx : rdma_context) (env : QpEnv) (index : Int)
    (h : env.ibv_post_recv (recv_wr_of ctx index) = 0) :
    post_recv ctx env index =
      ⟨[Event.ibv_post_recv (recv_wr_of ctx index)], Outcome.returned ()⟩ := by
  simp [post_recv, bind, Run.bind, emit, exit, pure, Run.pure, h]

theorem post_recv_failed (ctx : rdma_context) (env : QpEnv) (index : Int)
    (h : env.ibv_post_recv (recv_wr_of ctx index) ≠ 0) :
    post_recv ctx env index =
      ⟨[Event.ibv_post_recv (recv_wr_of ctx index), Event.perror "ibv_post_recv() failed"],
        Outcome.exited 1⟩ := by
  simp [post_recv, bind, Run.bind, emit, exit, pure, Run.pure, h]

theorem post_recv_loop_succ (ctx : rdma_context) (env : QpEnv) (i n : Nat) :
    post_recv_loop ctx env i (n + 1) =
      Run.bind (post_recv ctx env (i : Int)) (fun _ => post_recv_loop ctx env (i + 1) n) := rfl

/-- A loop of `post_recv` that returned has posted the slots `i .. i+n-1`, and
nothing else is in its trace. -/
theorem post_recv_loop_returned (ctx : rdma_context) (env : QpEnv) (n : Nat) :
    ∀ i, (post_recv_loop ctx env i n).outcome = Outcome.returned () →
      (post_recv_loop ctx env i n).trace =
        (List.range' i n).map (fun (j : Nat) => Event.ibv_post_recv (recv_wr_of ctx (j : Int))) := by
  induction n with
  | zero => intro i _; rfl
  | succ n ih =>
    intro i h
    rw [post_recv_loop_succ] at h ⊢
    by_cases hr : env.ibv_post_recv (recv_wr_of ctx (i : Int)) = 0
    · rw [post_recv_ok ctx env _ hr] at h ⊢
      simp only [Run.bind] at h ⊢
      rw [ih (i + 1) h]
      simp [List.range'_succ]
    · rw [post_recv_failed ctx env _ hr] at h
      simp [Run.bind] at h

/-- The loop of `post_recv` never calls `ibv_modify_qp`. -/
theorem post_recv_loop_modify_states (ctx : rdma_context) (env : QpEnv) (n : Nat) :
    ∀ i, modify_states (post_recv_loop ctx env i n).trace = [] := by
  induction n with
  | zero => intro i; rfl
  | succ n ih =>
    intro i
    rw [post_recv_loop_succ]
    by_cases hr : env.ibv_post_recv (recv_wr_of ctx (i : Int)) = 0
    · rw [post_recv_ok ctx env _ hr]
      simp only [Run.bind, List.singleton_append, modify_states]
      exact ih (i + 1)
    · rw [post_recv_failed ctx env _ hr]
      simp [Run.bind, modify_states]

theorem posted_recvs_map (ctx : rdma_context) (l : List Nat) :
    posted_recvs (l.map (fun (j : Nat) => Event.ibv_post_recv (recv_wr_of ctx (j : Int)))) =
      l.map (fun (j : Nat) => recv_wr_of ctx (j : Int)) := by
  induction l with
  | nil => rfl
  | cons a l ih => simp [posted_recvs, ih]

/-! ## Lemmas on `connect_qp` -/

theorem connect_qp_INIT_failed (cfg : settings) (ctx : rdma_context) (env : QpEnv)
    (remote_info : connection_establishment_data)
    (h1 : env.ibv_modify_qp (attr_INIT cfg) mask_INIT ≠ 0) :
    connect_qp cfg ctx env remote_info =
      ⟨[Event.ibv_modify_qp (attr_INIT cfg) mask_INIT,
        Event.perror "ibv_modify_qp() to INIT failed"], Outcome.exited 1⟩ := by
  simp [connect_qp, bind, Run.bind, emit, exit, h1]

theorem connect_qp_RTR_failed (cfg : settings) (ctx : rdma_context) (env : QpEnv)
    (remote_info : connection_establishment_data)
    (h1 : env.ibv_modify_qp (attr_INIT cfg) mask_INIT = 0)
    (h2 : env.ibv_modify_qp (attr_RTR cfg remote_info) mask_RTR ≠ 0) :
    connect_qp cfg ctx env remote_info =
      ⟨[Event.ibv_modify_qp (attr_INIT cfg) mask_INIT,
        Event.ibv_modify_qp (attr_RTR cfg remote_info) mask_RTR,
        Event.perror "ibv_modify_qp() to RTR failed"], Outcome.exited 1⟩ := by
  simp [connect_qp, bind, Run.bind, emit, exit, h1, h2]

theorem connect_qp_RTS_failed (cfg : settings) (ctx : rdma_context) (env : QpEnv)
    (remote_info : connection_establishment_data)
    (h1 : env.ibv_modify_qp (attr_INIT cfg) mask_INIT = 0)
    (h2 : env.ibv_modify_qp (attr_RTR cfg remote_info) mask_RTR = 0)
    (h3 : env.ibv_modify_qp attr_RTS mask_RTS ≠ 0) :
    connect_qp cfg ctx env remote_info =
      ⟨[Event.ibv_modify_qp (attr_INIT cfg) mask_INIT,
        Event.ibv_modify_qp (attr_RTR cfg remote_info) mask_RTR,
        Event.ibv_modify_qp attr_RTS mask_RTS,
        Event.perror "ibv_modify_qp() to RTS failed"], Outcome.exited 1⟩ := by
  simp [connect_qp, bind, Run.bind, emit, exit, h1, h2, h3]

theorem connect_qp_transitions_ok (cfg : settings) (ctx : rdma_context) (env : QpEnv)
    (remote_info : connection_establishment_data)
    (h1 : env.ibv_modify_qp (attr_INIT cfg) mask_INIT = 0)
    (h2 : env.ibv_modify_qp (attr_RTR cfg remote_info) mask_RTR = 0)
    (h3 : env.ibv_modify_qp attr_RTS mask_RTS = 0) :
    connect_qp cfg ctx env remote_info =
      ⟨[Event.ibv_modify_qp (attr_INIT cfg) mask_INIT,
        Event.ibv_modify_qp (attr_RTR cfg remote_info) mask_RTR,
        Event.ibv_modify_qp attr_RTS mask_RTS] ++
          (post_recv_loop ctx env 0 cfg.MAX_NUM_REQUESTS).trace,
        (post_recv_loop ctx env 0 cfg.MAX_NUM_REQUESTS).outcome⟩ := by
  simp [connect_qp, bind, Run.bind, emit, exit, h1, h2, h3]

/-- A run of `connect_qp` that returned had all three transitions succeed. -/
theorem connect_qp_returned_ok (cfg : settings) (ctx : rdma_context) (env : QpEnv)
    (remote_info : connection_establishment_data)
    (h : (connect_qp cfg ctx env remote_info).outcome = Outcome.returned ()) :
    env.ibv_modify_qp (attr_INIT cfg) mask_INIT = 0 ∧
    env.ibv_modify_qp (attr_RTR cfg remote_info) mask_RTR = 0 ∧
    env.ibv_modify_qp attr_RTS mask_RTS = 0 := by
  by_cases h1 : env.ibv_modify_qp (attr_INIT cfg) mask_INIT = 0
  · by_cases h2 : env.ibv_modify_qp (attr_RTR cfg remote_info) mask_RTR = 0
    · by_cases h3 : env.ibv_modify_qp attr_RTS mask_RTS = 0
      · exact ⟨h1, h2, h3⟩
      · rw [connect_qp_RTS_failed cfg ctx env remote_info h1 h2 h3] at h
        simp at h
    · rw [connect_qp_RTR_failed cfg ctx env remote_info h1 h2] at h
      simp at h
  · rw [connect_qp_INIT_failed cfg ctx env remote_info h1] at h
    simp at h

/-! ## Device selection (C2) -/

/-- C2 (the code departs from the claim): on a host with the devices `mlx5_0`
and `mlx5_1`, `initialize_verbs` asked for `mlx5_0` opens exactly one device
and it is `mlx5_1`, although `mlx5_0` is in the list; the test of `strcmp` is
true for the names that differ. -/
theorem initialize_verbs_opens_differing_device :
    two_devices.ibv_get_device_list = some [{ name := "mlx5_0" }, { name := "mlx5_1" }] ∧
    (initialize_verbs example_settings two_devices "mlx5_0").outcome =
      Outcome.returned { lkey := 7, rkey := 8 } ∧
    opened_devices (initialize_verbs example_settings two_devices "mlx5_0").trace =
      [{ name := "mlx5_1" }] ∧
    opened_devices (initialize_verbs example_settings two_devices "mlx5_1").trace =
      [{ name := "mlx5_0" }] := by
  decide

/-! ## Arming the receive slots (C3) -/

/-- C3 (counterexample): with two control slots and every verbs call
succeeding, `connect_qp` returns normally, yet no receive buffer is posted
before the call that requests RTS, while the claim asks for the two slots. -/
theorem connect_qp_no_recv_before_RTS :
    (connect_qp example_settings example_context qp_all_ok example_remote).outcome =
      Outcome.returned () ∧
    recvs_before_RTS
      (connect_qp example_settings example_context qp_all_ok example_remote).trace = [] ∧
    recvs_before_RTS
      (connect_qp example_settings example_context qp_all_ok example_remote).trace ≠
        all_slots example_context example_settings.MAX_NUM_REQUESTS := by
  decide

/-- C3 (amended): in every successful execution of `connect_qp` the calls are
the three transitions INIT, RTR, RTS followed by `post_recv(0)` ..
`post_recv(N-1)`: exactly the `N` slots are posted, in order, and all of them
after the call that requests RTS (none before it). -/
theorem connect_qp_arms_slots_after_RTS (cfg : settings) (ctx : rdma_context) (env : QpEnv)
    (remote_info : connection_establishment_data)
    (h : (connect_qp cfg ctx env remote_info).outcome = Outcome.returned ()) :
    (connect_qp cfg ctx env remote_info).trace =
      [Event.ibv_modify_qp (attr_INIT cfg) mask_INIT,
       Event.ibv_modify_qp (attr_RTR cfg remote_info) mask_RTR,
       Event.ibv_modify_qp attr_RTS mask_RTS] ++
        (all_slots ctx cfg.MAX_NUM_REQUESTS).map Event.ibv_post_recv ∧
    posted_recvs (connect_qp cfg ctx env remote_info).trace =
      all_slots ctx cfg.MAX_NUM_REQUESTS ∧
    (all_slots ctx cfg.MAX_NUM_REQUESTS).length = cfg.MAX_NUM_REQUESTS ∧
    recvs_before_RTS (connect_qp cfg ctx env remote_info).trace = [] := by
  obtain ⟨h1, h2, h3⟩ := connect_qp_returned_ok cfg ctx env remote_info h
  rw [connect_qp_transitions_ok cfg ctx env remote_info h1 h2 h3] at h ⊢
  simp only at h
  simp only [post_recv_loop_returned ctx env _ 0 h]
  refine ⟨?_, ?_, ?_, ?_⟩
  · simp [all_slots, List.map_map, Function.comp]
  · simp only [List.cons_append, List.nil_append, posted_recvs]
    exact posted_recvs_map ctx _
  · simp [all_slots]
  · simp [recvs_before_RTS, attr_INIT, attr_RTR, attr_RTS]

/-- C3 (amended), at a concrete input: two slots, every call succeeding. -/
theorem connect_qp_arms_slots_after_RTS_witness :
    (connect_qp example_settings example_context qp_all_ok example_remote).outcome =
      Outcome.returned () ∧
    posted_recvs
      (connect_qp example_settings example_context qp_all_ok example_remote).trace =
        all_slots example_context 2 :=
  ⟨by decide,
   (connect_qp_arms_slots_after_RTS example_settings example_context qp_all_ok
      example_remote (by decide)).2.1⟩

/-! ## Order and fatality of the transitions (C4) -/

/-- C4: `connect_qp` requests INIT, then RTR, then RTS, one `ibv_modify_qp`
call each. Whatever the three calls return: a failing call is followed only by
the report and `exit(1)`, with no later transition and no `post_recv`; the
states requested are always a prefix of INIT, RTR, RTS, and all three when
the calls succeed; and the function returns only if all three succeeded. -/
theorem connect_qp_transitions_ordered_and_fatal (cfg : settings) (ctx : rdma_context)
    (env : QpEnv) (remote_info : connection_establishment_data) :
    (env.ibv_modify_qp (attr_INIT cfg) mask_INIT ≠ 0 →
      connect_qp cfg ctx env remote_info =
        ⟨[Event.ibv_modify_qp (attr_INIT cfg) mask_INIT,
          Event.perror "ibv_modify_qp() to INIT failed"], Outcome.exited 1⟩) ∧
    (env.ibv_modify_qp (attr_INIT cfg) mask_INIT = 0 →
      env.ibv_modify_qp (attr_RTR cfg remote_info) mask_RTR ≠ 0 →
      connect_qp cfg ctx env remote_info =
        ⟨[Event.ibv_modify_qp (attr_INIT cfg) mask_INIT,
          Event.ibv_modify_qp (attr_RTR cfg remote_info) mask_RTR,
          Event.perror "ibv_modify_qp() to RTR failed"], Outcome.exited 1⟩) ∧
    (env.ibv_modify_qp (attr_INIT cfg) mask_INIT = 0 →
      env.ibv_modify_qp (attr_RTR cfg remote_info) mask_RTR = 0 →
      env.ibv_modify_qp attr_RTS mask_RTS ≠ 0 →
      connect_qp cfg ctx env remote_info =
        ⟨[Event.ibv_modify_qp (attr_INIT cfg) mask_INIT,
          Event.ibv_modify_qp (attr_RTR cfg remote_info) mask_RTR,
          Event.ibv_modify_qp attr_RTS mask_RTS,
          Event.perror "ibv_modify_qp() to RTS failed"], Outcome.exited 1⟩) ∧
    (env.ibv_modify_qp (attr_INIT cfg) mask_INIT = 0 →
      env.ibv_modify_qp (attr_RTR cfg remote_info) mask_RTR = 0 →
      env.ibv_modify_qp attr_RTS mask_RTS = 0 →
      modify_states (connect_qp cfg ctx env remote_info).trace =
        [ibv_qp_state.IBV_QPS_INIT, ibv_qp_state.IBV_QPS_RTR, ibv_qp_state.IBV_QPS_RTS]) ∧
    ((connect_qp cfg ctx env remote_info).outcome = Outcome.returned () →
      env.ibv_modify_qp (attr_INIT cfg) mask_INIT = 0 ∧
      env.ibv_modify_qp (attr_RTR cfg remote_info) mask_RTR = 0 ∧
      env.ibv_modify_qp attr_RTS mask_RTS = 0) ∧
    modify_states (connect_qp cfg ctx env remote_info).trace <+:
      [ibv_qp_state.IBV_QPS_INIT, ibv_qp_state.IBV_QPS_RTR, ibv_qp_state.IBV_QPS_RTS] := by
  have hok : env.ibv_modify_qp (attr_INIT cfg) mask_INIT = 0 →
      env.ibv_modify_qp (attr_RTR cfg remote_info) mask_RTR = 0 →
      env.ibv_modify_qp attr_RTS mask_RTS = 0 →
      modify_states (connect_qp cfg ctx env remote_info).trace =
        [ibv_qp_state.IBV_QPS_INIT, ibv_qp_state.IBV_QPS_RTR,
          ibv_qp_state.IBV_QPS_RTS] := by
    intro h1 h2 h3
    rw [connect_qp_transitions_ok cfg ctx env remote_info h1 h2 h3]
    simp [modify_states, post_recv_loop_modify_states, attr_INIT, attr_RTR, attr_RTS]
  refine ⟨connect_qp_INIT_failed cfg ctx env remote_info,
    connect_qp_RTR_failed cfg ctx env remote_info,
    connect_qp_RTS_failed cfg ctx env remote_info, hok,
    connect_qp_returned_ok cfg ctx env remote_info, ?_⟩
  by_cases h1 : env.ibv_modify_qp (attr_INIT cfg) mask_INIT = 0
  · by_cases h2 : env.ibv_modify_qp (attr_RTR cfg remote_info) mask_RTR = 0
    · by_cases h3 : env.ibv_modify_qp attr_RTS mask_RTS = 0
      · rw [hok h1 h2 h3]
      · rw [connect_qp_RTS_failed cfg ctx env remote_info h1 h2 h3]
        simp [modify_states, attr_INIT, attr_RTR, attr_RTS]
    · rw [connect_qp_RTR_failed cfg ctx env remote_info h1 h2]
      simp only [modify_states, attr_INIT, attr_RTR]
      exact ⟨[ibv_qp_state.IBV_QPS_RTS], rfl⟩
  · rw [connect_qp_INIT_failed cfg ctx env remote_info h1]
    simp only [modify_states, attr_INIT]
    exact ⟨[ibv_qp_state.IBV_QPS_RTR, ibv_qp_state.IBV_QPS_RTS], rfl⟩

/-! ## Completion polling (C5, C6) -/

/-- The polling loop, started at call `i` with enough fuel, ends at the first
call `i + k` whose return value is not zero. -/
theorem poll_loop_ends (cq : CqEnv) (k : Nat) :
    ∀ (fuel i : Nat) (wc : ibv_wc), k < fuel →
      (∀ j, j < k → (cq.ibv_poll_cq (i + j)).1 = 0) →
      (cq.ibv_poll_cq (i + k)).1 ≠ 0 →
      poll_loop cq fuel i wc =
        some (i + k + 1, (cq.ibv_poll_cq (i + k)).1,
          if 0 < (cq.ibv_poll_cq (i + k)).1 then (cq.ibv_poll_cq (i + k)).2 else wc) := by
  induction k with
  | zero =>
    intro fuel i wc hfuel _ hk
    obtain ⟨f, rfl⟩ : ∃ f, fuel = f + 1 := ⟨fuel - 1, by omega⟩
    simp only [Nat.add_zero] at hk
    simp [poll_loop, hk]
  | succ k ih =>
    intro fuel i wc hfuel hzero hk
    obtain ⟨f, rfl⟩ : ∃ f, fuel = f + 1 := ⟨fuel - 1, by omega⟩
    have h0 : (cq.ibv_poll_cq i).1 = 0 := by simpa using hzero 0 (by omega)
    have hstep := ih f (i + 1) wc (by omega)
      (fun j hj => by
        have := hzero (j + 1) (by omega)
        rwa [show i + 1 + j = i + (j + 1) by omega])
      (by rwa [show i + 1 + k = i + (k + 1) by omega])
    simp only [poll_loop, h0, if_true]
    rw [hstep, show i + 1 + k = i + (k + 1) by omega]

/-- On a source that only ever returns 0 the polling loop never ends. -/
theorem poll_loop_silent (cq : CqEnv) (hzero : ∀ i, (cq.ibv_poll_cq i).1 = 0) :
    ∀ (fuel i : Nat) (wc : ibv_wc), poll_loop cq fuel i wc = none := by
  intro fuel
  induction fuel with
  | zero => intro i wc; rfl
  | succ f ih =>
    intro i wc
    simp only [poll_loop, hzero i, if_true]
    exact ih (i + 1) wc

theorem perrors_append (a b : List Event) : perrors (a ++ b) = perrors a ++ perrors b := by
  induction a with
  | nil => rfl
  | cons e a ih => cases e <;> simp [perrors, ih]

theorem perrors_polls (n : Nat) : perrors (List.replicate n (Event.ibv_poll_cq 1)) = [] := by
  induction n with
  | zero => rfl
  | succ n ih => simp [List.replicate_succ, perrors, ih]

/-- The run of `poll_cq` once the polling loop has ended after `polls` calls
with the return value `num` and the contents `wc`. -/
theorem poll_cq_of_loop (cq : CqEnv) (fuel polls : Nat) (num : Int) (wc : ibv_wc)
    (h : poll_loop cq fuel 0 cq.wc_uninit = some (polls, num, wc)) :
    poll_cq cq fuel = some
      ⟨List.replicate polls (Event.ibv_poll_cq 1) ++
        ((if num < 0 then [Event.perror "Error polling CQ"] else []) ++
          [if wc.status = IBV_WC_SUCCESS then
              Event.printf "RDMA Read completed successfully!" []
            else Event.fprintf_stderr "RDMA Read failed: %d" [(wc.status : Int)]]),
        Outcome.returned (decide (wc.status = IBV_WC_SUCCESS))⟩ := by
  simp only [poll_cq, h]
  by_cases hs : wc.status = IBV_WC_SUCCESS <;> by_cases hn : num < 0 <;>
    simp [bind, Run.bind, emit, pure, Run.pure, hn, hs]

/-- C5 (the code departs from the claim): when the first non-zero return of
`ibv_poll_cq` is negative, `poll_cq` reports it through `perror` and goes on:
it returns a result read from the uninitialised `wc`, `true` when the status
field there happens to be `IBV_WC_SUCCESS`; it does not terminate the process. -/
theorem poll_cq_negative_count_returns (cq : CqEnv) (k fuel : Nat) (hfuel : k < fuel)
    (hzero : ∀ j, j < k → (cq.ibv_poll_cq j).1 = 0)
    (hneg : (cq.ibv_poll_cq k).1 < 0) :
    ∃ r, poll_cq cq fuel = some r ∧
      r.outcome = Outcome.returned (decide (cq.wc_uninit.status = IBV_WC_SUCCESS)) ∧
      perrors r.trace = ["Error polling CQ"] := by
  have hloop := poll_loop_ends cq k fuel 0 cq.wc_uninit hfuel
    (fun j hj => by simpa using hzero j hj) (by simp only [Nat.zero_add]; omega)
  simp only [Nat.zero_add] at hloop
  have hnot : ¬ 0 < (cq.ibv_poll_cq k).1 := by omega
  simp only [hnot, if_false] at hloop
  refine ⟨_, poll_cq_of_loop cq fuel _ _ _ hloop, rfl, ?_⟩
  by_cases hs : cq.wc_uninit.status = IBV_WC_SUCCESS <;>
    simp [perrors_append, perrors_polls, perrors, hneg, hs]

/-- C5, at the failing input: the first call returns -1 and the uninitialised
`wc` holds status 0; `poll_cq` reports the error and returns `true`. -/
theorem poll_cq_negative_count_returns_witness :
    (cq_error.ibv_poll_cq 0).1 < 0 ∧
    (∃ r, poll_cq cq_error 1 = some r ∧
      r.outcome = Outcome.returned (decide (cq_error.wc_uninit.status = IBV_WC_SUCCESS)) ∧
      perrors r.trace = ["Error polling CQ"]) ∧
    poll_cq cq_error 1 = some
      ⟨[Event.ibv_poll_cq 1, Event.perror "Error polling CQ",
        Event.printf "RDMA Read completed successfully!" []], Outcome.returned true⟩ :=
  ⟨by decide,
   poll_cq_negative_count_returns cq_error 0 1 (by decide)
     (fun j hj => absurd hj (Nat.not_lt_zero j)) (by decide),
   by decide⟩

/-- C6: on a completion source whose every call returns 0, `poll_cq` has
produced no result after any number of calls: for every bound on the number of
polls it is still in its loop, so it returns neither `true` nor `false`. -/
theorem poll_cq_silent_never_returns (cq : CqEnv)
    (hzero : ∀ i, (cq.ibv_poll_cq i).1 = 0) (fuel : Nat) :
    poll_cq cq fuel = none ∧
    ∀ r, poll_cq cq fuel = some r → r.outcome ≠ Outcome.returned true := by
  have h : poll_cq cq fuel = none := by
    simp only [poll_cq, poll_loop_silent cq hzero]
  refine ⟨h, ?_⟩
  intro r hr
  rw [h] at hr
  cases hr

/-- C6, at a concrete input: the silent source, after 1000 polls. -/
theorem poll_cq_silent_never_returns_witness :
    (∀ i, (cq_silent.ibv_poll_cq i).1 = 0) ∧ poll_cq cq_silent 1000 = none :=
  ⟨fun _ => rfl, (poll_cq_silent_never_returns cq_silent (fun _ => rfl) 1000).1⟩

/-! ## Integer conversions -/

theorem toInt32_of_fits (x : Int) (h0 : 0 ≤ x) (h1 : x < 2 ^ 31) : toInt32 x = x := by
  unfold toInt32
  norm_num at h1 ⊢
  have : x % 4294967296 = x := Int.emod_eq_of_lt h0 (by omega)
  rw [this]
  simp [h1]

theorem toUInt32_of_fits (x : Nat) (h : x < 2 ^ 32) : toUInt32 (x : Int) = x := by
  unfold toUInt32
  norm_num at h ⊢
  omega

theorem toUInt32_toInt32 (x : Int) : toUInt32 (toInt32 x) = toUInt32 x := by
  unfold toUInt32 toInt32
  norm_num
  split <;> congr 1 <;> omega

theorem toUInt32_nat (x : Nat) : toUInt32 (x : Int) = x % 2 ^ 32 := by
  unfold toUInt32
  norm_num
  omega

/-! ## Lemmas on `receive_file` -/

theorem posted_sends_append (a b : List Event) :
    posted_sends (a ++ b) = posted_sends a ++ posted_sends b := by
  induction a with
  | nil => rfl
  | cons e a ih => cases e <;> simp [posted_sends, ih]

theorem posted_sends_polls (n : Nat) :
    posted_sends (List.replicate n (Event.ibv_poll_cq 1)) = [] := by
  induction n with
  | zero => rfl
  | succ n ih => simp [List.replicate_succ, posted_sends, ih]

/-- The first part of `receive_file` once the descriptor is received and the
buffer registered: one work request is handed to `ibv_post_send`, and the
result of that call decides between `exit(1)` and going on. -/
theorem receive_file_post_registered (env : ServerEnv) (mr : ibv_mr)
    (hrecv : 0 ≤ env.recv_ret)
    (hreg : env.ibv_reg_mr (server_file env) (toUInt64 env.recv_req.length)
      file_access_server = some mr) :
    receive_file_post env =
      ⟨[Event.malloc env.sizeof_file_request, Event.recv,
        Event.malloc (toUInt64 (toInt32 (env.recv_req.length + 1))),
        Event.printf "file request: request_id=%d, rkey=%d, length=%d, addr=%p"
          [env.recv_req.request_id, env.recv_req.rkey, env.recv_req.length,
            env.recv_req.addr],
        Event.ibv_reg_mr (server_file env) (toUInt64 env.recv_req.length) file_access_server,
        Event.ibv_post_send (receive_file_wr env.recv_req (server_file env) mr.lkey)] ++
        (if env.qp.ibv_post_send (receive_file_wr env.recv_req (server_file env) mr.lkey) ≠ 0
          then [Event.perror "ibv_post_send() failed"] else []),
        if env.qp.ibv_post_send (receive_file_wr env.recv_req (server_file env) mr.lkey) ≠ 0
          then Outcome.exited 1 else Outcome.returned (server_file env, mr)⟩ := by
  have hnot : ¬ env.recv_ret < 0 := by omega
  simp only [receive_file_wr]
  by_cases hp : env.qp.ibv_post_send
      (rdma_read_wr (server_file env) (toUInt32 env.recv_req.length) mr.lkey
        env.recv_req.addr (toUInt32 env.recv_req.rkey) 1) = 0 <;>
    simp [receive_file_post, post_rdma_read, bind, Run.bind, emit, exit,
      pure, Run.pure, hnot, hreg, hp]

/-- A first part of `receive_file` that returned has received the descriptor,
registered the buffer and posted the read successfully. -/
theorem receive_file_post_returned (env : ServerEnv) (file : Nat) (mr : ibv_mr)
    (h : (receive_file_post env).outcome = Outcome.returned (file, mr)) :
    0 ≤ env.recv_ret ∧
    env.ibv_reg_mr (server_file env) (toUInt64 env.recv_req.length)
      file_access_server = some mr ∧
    file = server_file env ∧
    env.qp.ibv_post_send (receive_file_wr env.recv_req (server_file env) mr.lkey) = 0 := by
  by_cases hrecv : env.recv_ret < 0
  · simp [receive_file_post, bind, Run.bind, emit, exit, hrecv] at h
  · have hrecv0 : 0 ≤ env.recv_ret := by omega
    cases hreg : env.ibv_reg_mr (server_file env) (toUInt64 env.recv_req.length)
        file_access_server with
    | none => simp [receive_file_post, bind, Run.bind, emit, exit, hrecv, hreg] at h
    | some mr0 =>
      rw [receive_file_post_registered env mr0 hrecv0 hreg] at h
      by_cases hp : env.qp.ibv_post_send
          (receive_file_wr env.recv_req (server_file env) mr0.lkey) = 0
      · simp only [hp, ne_eq, not_true_eq_false, if_false, Outcome.returned.injEq,
          Prod.mk.injEq] at h
        obtain ⟨hf, hm⟩ := h
        subst hm
        exact ⟨hrecv0, rfl, hf.symm, hp⟩
      · simp [hp] at h

/-- A run of `poll_cq` that ended comes from a polling loop that ended. -/
theorem poll_cq_some (cq : CqEnv) (fuel : Nat) (p : Run Bool) (h : poll_cq cq fuel = some p) :
    ∃ polls num wc, poll_loop cq fuel 0 cq.wc_uninit = some (polls, num, wc) := by
  cases hl : poll_loop cq fuel 0 cq.wc_uninit with
  | none => simp [poll_cq, hl] at h
  | some t => exact ⟨t.1, t.2.1, t.2.2, rfl⟩

/-- The run of `receive_file` once its first part returned and the polling loop
ended after `polls` calls with the return value `num` and the contents `wc`. -/
theorem receive_file_of_loop (env : ServerEnv) (mem : Memory) (fuel : Nat)
    (file : Nat) (mr : ibv_mr) (polls : Nat) (num : Int) (wc : ibv_wc)
    (hpost : (receive_file_post env).outcome = Outcome.returned (file, mr))
    (hloop : poll_loop env.cq fuel 0 env.cq.wc_uninit = some (polls, num, wc)) :
    receive_file env mem fuel = some
      ⟨(receive_file_post env).trace ++
        (List.replicate polls (Event.ibv_poll_cq 1) ++
          ((if num < 0 then [Event.perror "Error polling CQ"] else []) ++
            [if wc.status = IBV_WC_SUCCESS then
                Event.printf "RDMA Read completed successfully!" []
              else Event.fprintf_stderr "RDMA Read failed: %d" [(wc.status : Int)]]) ++
          (if wc.status = IBV_WC_SUCCESS then []
            else [Event.perror "server: poll_cq returned false"])),
        Outcome.returned
          { file := file
            mr_file := mr
            done := decide (wc.status = IBV_WC_SUCCESS)
            mem :=
              if 0 < num ∧ wc.status = IBV_WC_SUCCESS then
                rdma_read_effect env.remote_memory
                  (receive_file_wr env.recv_req file mr.lkey) mem
              else mem }⟩ := by
  simp only [receive_file, hpost, poll_cq_of_loop env.cq fuel polls num wc hloop,
    memory_after_poll, hloop]
  by_cases hs : wc.status = IBV_WC_SUCCESS <;>
    simp [bind, Run.bind, emit, pure, Run.pure, hpost, hs]

/-! ## The posted read (C7) -/

/-- C7: for every descriptor `req` received (with the destination buffer
registered, registration `mr`), `receive_file` hands exactly one work request
to `ibv_post_send`, whatever that call and the polling do afterwards: an RDMA
Read, signaled, with the single scatter-gather entry over the buffer `file`
of length `req.length` (as `uint32_t`), remote address `req.addr`, remote key
`req.rkey` (as `uint32_t`) and `wr_id` 1. -/
theorem receive_file_posts_one_read (env : ServerEnv) (mem : Memory) (mr : ibv_mr)
    (hrecv : 0 ≤ env.recv_ret)
    (hreg : env.ibv_reg_mr (server_file env) (toUInt64 env.recv_req.length)
      file_access_server = some mr) :
    posted_sends (receive_file_post env).trace =
      [{ opcode := ibv_wr_opcode.IBV_WR_RDMA_READ
         wr_id := 1
         sg_list :=
           [{ addr := server_file env
              length := toUInt32 env.recv_req.length
              lkey := mr.lkey }]
         num_sge := 1
         send_flags := [ibv_send_flags.IBV_SEND_SIGNALED]
         imm_data := 0
         remote_addr := env.recv_req.addr
         rkey := toUInt32 env.recv_req.rkey }] ∧
    ∀ fuel r, receive_file env mem fuel = some r →
      posted_sends r.trace = posted_sends (receive_file_post env).trace := by
  have hpre := receive_file_post_registered env mr hrecv hreg
  constructor
  · rw [hpre]
    by_cases hp : env.qp.ibv_post_send
        (receive_file_wr env.recv_req (server_file env) mr.lkey) = 0
    · simp only [hp, ne_eq, not_true_eq_false, if_false, List.append_nil]
      rfl
    · simp only [hp, ne_eq, not_false_eq_true, if_true]
      rfl
  · intro fuel r hr
    by_cases hp : env.qp.ibv_post_send
        (receive_file_wr env.recv_req (server_file env) mr.lkey) = 0
    · have hout : (receive_file_post env).outcome =
          Outcome.returned (server_file env, mr) := by
        rw [hpre]; simp [hp]
      cases hpoll : poll_cq env.cq fuel with
      | none => simp [receive_file, hout, hpoll] at hr
      | some p =>
        obtain ⟨polls, num, wc, hloop⟩ := poll_cq_some env.cq fuel p hpoll
        rw [receive_file_of_loop env mem fuel _ mr polls num wc hout hloop] at hr
        cases hr
        simp only [posted_sends_append, posted_sends_polls]
        by_cases hs : wc.status = IBV_WC_SUCCESS <;> by_cases hn : num < 0 <;>
          simp [hs, hn, posted_sends]
    · have hout : (receive_file_post env).outcome = Outcome.exited 1 := by
        rw [hpre]; simp [hp]
      simp only [receive_file, hout] at hr
      cases hr
      rfl

/-- C7, at a concrete input: the descriptor of a 5-byte buffer. -/
theorem receive_file_posts_one_read_witness :
    posted_sends (receive_file_post server_ok).trace =
      [{ opcode := ibv_wr_opcode.IBV_WR_RDMA_READ
         wr_id := 1
         sg_list := [{ addr := 8192, length := 5, lkey := 3 }]
         num_sge := 1
         send_flags := [ibv_send_flags.IBV_SEND_SIGNALED]
         imm_data := 0
         remote_addr := 4096
         rkey := 2 }] :=
  (receive_file_posts_one_read server_ok zero_memory { lkey := 3, rkey := 4 }
    (by decide) rfl).1

/-! ## Completion failures (C10) -/

/-- C10: when the polling loop obtains a completion entry with a positive
count (at call `k`, after `k` calls that returned 0), `poll_cq` returns, and
it returns `true` exactly when the status of the entry is `IBV_WC_SUCCESS`;
when the status is something else, `receive_file` reports the status and the
failure and returns normally: the process is not terminated. -/
theorem completion_failure_is_not_fatal (env : ServerEnv) (mem : Memory) (k fuel : Nat)
    (hfuel : k < fuel)
    (hzero : ∀ j, j < k → (env.cq.ibv_poll_cq j).1 = 0)
    (hpos : 0 < (env.cq.ibv_poll_cq k).1) :
    (∃ p, poll_cq env.cq fuel = some p ∧
      p.outcome =
        Outcome.returned (decide ((env.cq.ibv_poll_cq k).2.status = IBV_WC_SUCCESS)) ∧
      (p.outcome = Outcome.returned true ↔
        (env.cq.ibv_poll_cq k).2.status = IBV_WC_SUCCESS) ∧
      (p.outcome = Outcome.returned false ↔
        (env.cq.ibv_poll_cq k).2.status ≠ IBV_WC_SUCCESS)) ∧
    ∀ file mr, (receive_file_post env).outcome = Outcome.returned (file, mr) →
      (env.cq.ibv_poll_cq k).2.status ≠ IBV_WC_SUCCESS →
      ∃ r st, receive_file env mem fuel = some r ∧
        r.outcome = Outcome.returned st ∧ st.done = false ∧
        perrors r.trace = ["server: poll_cq returned false"] ∧
        Event.fprintf_stderr "RDMA Read failed: %d"
          [((env.cq.ibv_poll_cq k).2.status : Int)] ∈ r.trace := by
  have hloop := poll_loop_ends env.cq k fuel 0 env.cq.wc_uninit hfuel
    (fun j hj => by simpa using hzero j hj) (by simp only [Nat.zero_add]; omega)
  simp only [Nat.zero_add, hpos, if_true] at hloop
  constructor
  · refine ⟨_, poll_cq_of_loop env.cq fuel _ _ _ hloop, rfl, ?_, ?_⟩ <;> simp
  · intro file mr hpost hstatus
    obtain ⟨hrecv, hreg, _, hp⟩ := receive_file_post_returned env file mr hpost
    refine ⟨_, _, receive_file_of_loop env mem fuel file mr _ _ _ hpost hloop, rfl, ?_, ?_, ?_⟩
    · simp [hstatus]
    · have hn : ¬ (env.cq.ibv_poll_cq k).1 < 0 := by omega
      rw [receive_file_post_registered env mr hrecv hreg]
      simp [perrors_append, perrors_polls, perrors, hstatus, hn, hp]
    · simp [hstatus]

/-- C10, at a concrete input: the completion arrives with status 10. -/
theorem completion_failure_is_not_fatal_witness :
    0 < (server_read_fails.cq.ibv_poll_cq 0).1 ∧
    ∃ r st, receive_file server_read_fails zero_memory 1 = some r ∧
      r.outcome = Outcome.returned st ∧ st.done = false ∧
      perrors r.trace = ["server: poll_cq returned false"] ∧
      Event.fprintf_stderr "RDMA Read failed: %d"
        [((server_read_fails.cq.ibv_poll_cq 0).2.status : Int)] ∈ r.trace :=
  ⟨by decide,
   (completion_failure_is_not_fatal server_read_fails zero_memory 0 1 (by decide)
      (fun j hj => absurd hj (Nat.not_lt_zero j)) (by decide)).2
      8192 { lkey := 3, rkey := 4 } (by decide) (by decide)⟩

/-! ## The descriptor sent by the client (C8) -/

/-- The run of `send_file` once the buffer is registered: the descriptor is
handed to `send`, and the result of that call decides between `exit(1)` and
returning `true`. -/
theorem send_file_registered (env : ClientEnv) (mem : Memory) (mr : ibv_mr)
    (hreg : env.ibv_reg_mr (client_buffer env) (toUInt64 (client_length env))
      file_access_client = some mr) :
    send_file env mem =
      ⟨[Event.ibv_reg_mr (client_buffer env) (toUInt64 (client_length env))
          file_access_client,
        Event.printf "buf content that will be sent: %s" [],
        Event.send (client_request env mr)] ++
        (if env.send_ret < 0 then [Event.perror "send"]
          else [Event.printf "file request: request_id=%d, rkey=%d, length=%d, addr=%p"
            [(client_request env mr).request_id, (client_request env mr).rkey,
             (client_request env mr).length, (client_request env mr).addr]]),
        if env.send_ret < 0 then Outcome.exited 1
        else Outcome.returned
          { result := true, buffer := client_buffer env, mem := client_memory env mem }⟩ := by
  by_cases hs : env.send_ret < 0 <;>
    simp [send_file, bind, Run.bind, emit, exit, pure, Run.pure, hreg, hs]

/-- A run of `send_file` that returned has registered the buffer and sent the
descriptor. -/
theorem send_file_returned (env : ClientEnv) (mem : Memory) (st : ClientState)
    (h : (send_file env mem).outcome = Outcome.returned st) :
    ∃ mr, env.ibv_reg_mr (client_buffer env) (toUInt64 (client_length env))
        file_access_client = some mr ∧
      sent_requests (send_file env mem).trace = [client_request env mr] ∧
      st = { result := true, buffer := client_buffer env, mem := client_memory env mem } := by
  cases hreg : env.ibv_reg_mr (client_buffer env) (toUInt64 (client_length env))
      file_access_client with
  | none => simp [send_file, bind, Run.bind, emit, exit, hreg] at h
  | some mr =>
    rw [send_file_registered env mem mr hreg] at h ⊢
    by_cases hs : env.send_ret < 0
    · simp [hs] at h
    · simp only [hs, if_false, Outcome.returned.injEq] at h
      exact ⟨mr, rfl, by simp [hs, sent_requests], h.symm⟩

/-- C8 (counterexample): for a readable file of 2^31 bytes the descriptor
`send_file` sends has the length field -2147483648, not the length of the
file. -/
theorem send_file_length_wraps :
    client_2GiB.fopen = true ∧ client_2GiB.file_length = 2 ^ 31 ∧
    sent_requests (send_file client_2GiB zero_memory).trace =
      [{ request_id := 1, rkey := 2, length := -2147483648, addr := 4096 }] ∧
    ¬ ∀ req ∈ sent_requests (send_file client_2GiB zero_memory).trace,
        req.length = (client_2GiB.file_length : Int) := by
  decide

/-- C8 (amended): for every readable file of length `L`, every descriptor
`send_file` sends has `request_id` 1, as `rkey` the remote key of the
registration of the file buffer stored in an `int` (converting it back to
`uint32_t` gives the key), as `length` the value of `L` converted to `int`,
which is `L` itself whenever `L < 2^31`, and as `addr` the address of the
buffer; and once the buffer is registered exactly one descriptor is sent. -/
theorem send_file_descriptor (env : ClientEnv) (mem : Memory)
    (hopen : env.fopen = true) :
    (∀ req ∈ sent_requests (send_file env mem).trace,
      ∃ mr, env.ibv_reg_mr (env.posix_memalign (toUInt64 (env.file_length : Int)))
          (toUInt64 (env.file_length : Int)) file_access_client = some mr ∧
        req.request_id = 1 ∧
        req.rkey = toInt32 (mr.rkey : Int) ∧
        toUInt32 req.rkey = mr.rkey % 2 ^ 32 ∧
        req.length = toInt32 (env.file_length : Int) ∧
        (env.file_length < 2 ^ 31 → req.length = (env.file_length : Int)) ∧
        req.addr = env.posix_memalign (toUInt64 (env.file_length : Int))) ∧
    (∀ mr, env.ibv_reg_mr (env.posix_memalign (toUInt64 (env.file_length : Int)))
        (toUInt64 (env.file_length : Int)) file_access_client = some mr →
      sent_requests (send_file env mem).trace =
        [{ request_id := 1
           rkey := toInt32 (mr.rkey : Int)
           length := toInt32 (env.file_length : Int)
           addr := env.posix_memalign (toUInt64 (env.file_length : Int)) }]) := by
  have hlen : client_length env = (env.file_length : Int) := by simp [client_length, hopen]
  have hbuf : client_buffer env = env.posix_memalign (toUInt64 (env.file_length : Int)) := by
    simp [client_buffer, hopen, hlen]
  have hsent : ∀ mr, env.ibv_reg_mr (env.posix_memalign (toUInt64 (env.file_length : Int)))
        (toUInt64 (env.file_length : Int)) file_access_client = some mr →
      sent_requests (send_file env mem).trace =
        [{ request_id := 1
           rkey := toInt32 (mr.rkey : Int)
           length := toInt32 (env.file_length : Int)
           addr := env.posix_memalign (toUInt64 (env.file_length : Int)) }] := by
    intro mr hreg
    rw [send_file_registered env mem mr (by rw [hbuf, hlen]; exact hreg)]
    by_cases hs : env.send_ret < 0 <;>
      simp [hs, sent_requests, client_request, hlen, hbuf]
  refine ⟨?_, hsent⟩
  intro req hreq
  cases hreg : env.ibv_reg_mr (env.posix_memalign (toUInt64 (env.file_length : Int)))
      (toUInt64 (env.file_length : Int)) file_access_client with
  | none =>
    rw [← hbuf, ← hlen] at hreg
    simp [send_file, bind, Run.bind, emit, exit, hreg, sent_requests] at hreq
  | some mr =>
    rw [hsent mr hreg, List.mem_singleton] at hreq
    have hfit : env.file_length < 2 ^ 31 →
        toInt32 (env.file_length : Int) = (env.file_length : Int) :=
      fun h => toInt32_of_fits _ (by omega) (by exact_mod_cast h)
    have hkey : toUInt32 (toInt32 (mr.rkey : Int)) = mr.rkey % 2 ^ 32 := by
      rw [toUInt32_toInt32, toUInt32_nat]
    refine ⟨mr, rfl, ?_, ?_, ?_, ?_, ?_, ?_⟩
    · rw [hreq]
    · rw [hreq]
    · rw [hreq]
      simpa using hkey
    · rw [hreq]
    · rw [hreq]
      intro h
      simpa using hfit (by simpa using h)
    · rw [hreq]

/-- C8 (amended), at a concrete input: a file of 5 bytes. -/
theorem send_file_descriptor_witness :
    client_ok.fopen = true ∧
    sent_requests (send_file client_ok zero_memory).trace =
      [{ request_id := 1, rkey := 2, length := 5, addr := 4096 }] :=
  ⟨rfl, (send_file_descriptor client_ok zero_memory rfl).2 { lkey := 1, rkey := 2 } rfl⟩

/-! ## The round trip (C1) -/

/-- The bytes an RDMA Read with one scatter-gather entry leaves in its buffer. -/
theorem rdma_read_effect_byte (remote mem : Memory) (req : file_request) (file lkey i : Nat)
    (h : i < toUInt32 req.length) :
    rdma_read_effect remote (receive_file_wr req file lkey) mem (file + i) =
      remote (req.addr + i) := by
  have h1 : file ≤ file + i := Nat.le_add_right _ _
  have h2 : file + i < file + toUInt32 req.length := by omega
  simp [rdma_read_effect, receive_file_wr, rdma_read_wr, scatter, copy_bytes, h2]

/-- C1 (counterexample): a file of 2^32 + 1 bytes, all 1. `send_file` returns
`true` and sends a descriptor with length 1; the server receives it, both
functions complete and `poll_cq` reports success on a completion entry with
status success; yet the second byte of the server's buffer `file` is 0 while
the second byte of the client's buffer is 1, so the buffers do not agree on
the first `L` bytes. -/
theorem transfer_truncates_long_file :
    client_4GiB.fopen = true ∧ 0 < client_4GiB.file_length ∧
    sent_requests (send_file client_4GiB zero_memory).trace = [server_4GiB.recv_req] ∧
    server_4GiB.remote_memory = client_memory client_4GiB zero_memory ∧
    (returned_value (send_file client_4GiB zero_memory)).map
        (fun st => (st.result, st.buffer, st.mem (st.buffer + 1))) = some (true, 4096, 1) ∧
    (receive_file server_4GiB zero_memory 2).map
        (fun r => (returned_value r).map (fun st => (st.done, st.file, st.mem (st.file + 1)))) =
      some (some (true, 8192, 0)) ∧
    server_4GiB.cq.ibv_poll_cq 1 = (1, { wr_id := 1, status := IBV_WC_SUCCESS }) ∧
    ¬ ∀ r sst cst, receive_file server_4GiB zero_memory 2 = some r →
        r.outcome = Outcome.returned sst → sst.done = true →
        (send_file client_4GiB zero_memory).outcome = Outcome.returned cst →
        ∀ i, i < client_4GiB.file_length →
          sst.mem (sst.file + i) = cst.mem (cst.buffer + i) := by
  refine ⟨rfl, by decide, by decide, rfl, by decide, by decide, by decide, ?_⟩
  intro h
  have h1 := h _ _ _ rfl rfl rfl rfl 1 (by decide)
  revert h1
  decide

/-- C1 (amended): for every file length `L < 2^31`, after a run in which
`send_file` returns, the server receives the descriptor that was sent and
reads the client's memory, `receive_file` returns, and `poll_cq` reports
success on a completion entry obtained with a positive count: the first `L`
bytes of the server's buffer `file` equal the first `L` bytes of the client's
buffer, which are the bytes of the file when the buffer was allocated. -/
theorem transfer_round_trip (cenv : ClientEnv) (cmem : Memory) (senv : ServerEnv)
    (smem : Memory) (fuel : Nat) (cst : ClientState) (r : Run ServerState)
    (sst : ServerState) (polls : Nat) (num : Int) (wc : ibv_wc)
    (hopen : cenv.fopen = true)
    (hfit : cenv.file_length < 2 ^ 31)
    (hclient : (send_file cenv cmem).outcome = Outcome.returned cst)
    (hsent : senv.recv_req ∈ sent_requests (send_file cenv cmem).trace)
    (hremote : senv.remote_memory = cst.mem)
    (hserver : receive_file senv smem fuel = some r)
    (hreturned : r.outcome = Outcome.returned sst)
    (hdone : sst.done = true)
    (hloop : poll_loop senv.cq fuel 0 senv.cq.wc_uninit = some (polls, num, wc))
    (hentry : 0 < num) :
    ∀ i, i < cenv.file_length →
      sst.mem (sst.file + i) = cst.mem (cst.buffer + i) ∧
      (cst.buffer ≠ 0 → cst.mem (cst.buffer + i) = cenv.file_bytes i) := by
  obtain ⟨cmr, _, hreq, hcst⟩ := send_file_returned cenv cmem cst hclient
  have hlen : client_length cenv = (cenv.file_length : Int) := by simp [client_length, hopen]
  rw [hreq, List.mem_singleton] at hsent
  have hlength : toUInt32 senv.recv_req.length = cenv.file_length := by
    rw [hsent]
    simp only [client_request, hlen]
    rw [toUInt32_toInt32, toUInt32_of_fits]
    calc cenv.file_length < 2 ^ 31 := hfit
      _ < 2 ^ 32 := by norm_num
  have haddr : senv.recv_req.addr = cst.buffer := by rw [hsent, hcst]; rfl
  -- the server's run
  cases hpost : (receive_file_post senv).outcome with
  | exited code =>
    simp only [receive_file, hpost, Option.some.injEq] at hserver
    rw [← hserver] at hreturned
    cases hreturned
  | returned fm =>
    obtain ⟨file, smr⟩ := fm
    rw [receive_file_of_loop senv smem fuel file smr polls num wc hpost hloop] at hserver
    cases hserver
    cases hreturned
    simp only [decide_eq_true_eq] at hdone
    intro i hi
    constructor
    · simp only [hentry, hdone, and_self, if_true]
      rw [rdma_read_effect_byte _ _ _ _ _ _ (by rw [hlength]; exact hi), haddr, hremote]
    · intro hbuf
      rw [hcst] at hbuf ⊢
      simp only at hbuf ⊢
      simp [client_memory, hopen, hbuf, copy_bytes, hi]

/-- C1 (amended), at a concrete input: a file of 5 bytes, a completion with
status success at the second poll; byte 3 of the two buffers. -/
theorem transfer_round_trip_witness :
    ∃ r sst cst, receive_file server_ok zero_memory 2 = some r ∧
      r.outcome = Outcome.returned sst ∧
      (send_file client_ok zero_memory).outcome = Outcome.returned cst ∧
      sst.mem (sst.file + 3) = cst.mem (cst.buffer + 3) :=
  ⟨_, _, _, rfl, rfl, rfl,
    (transfer_round_trip client_ok zero_memory server_ok zero_memory 2
      _ _ _ 2 1 { wr_id := 1, status := 0 } rfl (by decide) rfl (by decide)
      rfl rfl rfl rfl (by decide) (by decide) 3 (by decide)).1⟩

/-! ## The default port of the server (C11) -/

/-- C11: when the server is started with no port argument, for every value
`r ≥ 0` that `rand()` returns, `main` goes on with the port
`TCP_PORT_OFFSET + r % TCP_PORT_RANGE`: it lies in the range 23456 .. 24455,
the conversion to the 16-bit `tcp_port` does not change it, and it is not 0. -/
theorem main_tcp_port_default_in_range (argc atoi_argv1 r : Int)
    (hargc : 1 ≤ argc) (hnoport : argc < 2) (hr : 0 ≤ r) :
    ∃ port : Nat, main_tcp_port argc atoi_argv1 r = ⟨[], Outcome.returned port⟩ ∧
      (port : Int) = TCP_PORT_OFFSET + r % TCP_PORT_RANGE ∧
      23456 ≤ port ∧ port ≤ 24455 ∧ port < 2 ^ 16 ∧ port ≠ 0 := by
  have h1 : ¬ argc < 1 := by omega
  have htmod : Int.tmod r TCP_PORT_RANGE = r % TCP_PORT_RANGE :=
    Int.tmod_eq_emod hr (by decide)
  have hrun : main_tcp_port argc atoi_argv1 r =
      ⟨[], Outcome.returned (toUInt16 (TCP_PORT_OFFSET + r % TCP_PORT_RANGE))⟩ := by
    simp [main_tcp_port, parse_arguments, bind, Run.bind, pure, Run.pure, h1, hnoport, htmod]
  refine ⟨_, hrun, ?_⟩
  simp only [toUInt16, TCP_PORT_OFFSET, TCP_PORT_RANGE]
  norm_num
  omega

/-- C11, at a concrete input: no argument and `rand()` returning 2147483647. -/
theorem main_tcp_port_default_in_range_witness :
    ∃ port : Nat, main_tcp_port 1 0 2147483647 = ⟨[], Outcome.returned port⟩ ∧
      (port : Int) = TCP_PORT_OFFSET + 2147483647 % TCP_PORT_RANGE ∧
      23456 ≤ port ∧ port ≤ 24455 ∧ port < 2 ^ 16 ∧ port ≠ 0 :=
  main_tcp_port_default_in_range 1 0 2147483647 (by decide) (by decide) (by decide)

end RdmaApp
